import Mathlib

/-!
Verification development for the incident tracker service
(`src/incident_tracker.py`).

The service is a CRUD API over a single `Incident` entity backed by a
record store.  We shallowly embed the four request handlers
(`create_incident`, `get_incidents`, `update_incident`, `delete_incident`)
and the validation helper `validate_fields` as pure Lean functions over an
explicit store state.

Modelling conventions:
* A decoded JSON body is a `Json` value; an absent body is `none`.
  JSON numbers are modelled as integers: the handlers only ever inspect
  truthiness and string-ness of values, never numeric magnitude.
* Python truthiness of a JSON value is `pyTruthy`.
* A Python `dict` is an association list `List (String × Json)`;
  `dict.get k` is `dictGet` (absent keys yield `Json.null`, which is falsy
  like Python `None` and is not a string, matching `None`).
* `str.strip()` is `pyStrip` (drop leading and trailing whitespace).
* An unhandled Python exception (`AttributeError`, `TypeError`, `KeyError`)
  is `Except.error ()`.
* The SQLite store is a `Store`: the list of persisted rows plus the next
  auto-increment id.  `datetime.now(timezone.utc)` is an abstract clock
  value `now : Nat` passed to `create_incident`.
* HTTP responses are the `…Result` sum types below; their `code` functions
  give the HTTP status code the handler pairs with each body.
-/

/-- JSON values as decoded from a request body. -/
inductive Json where
  | null : Json
  | bool (b : Bool) : Json
  | num (n : Int) : Json
  | str (s : String) : Json
  | arr (elems : List Json) : Json
  | obj (fields : List (String × Json)) : Json

/-- Python truthiness of a JSON value (`if not data:` etc.). -/
def pyTruthy : Json → Bool
  | .null => false
  | .bool b => b
  | .num n => n != 0
  | .str s => s != ""
  | .arr elems => !elems.isEmpty
  | .obj fields => !fields.isEmpty

/-- Python `dict.get k`: the value stored under `k`, or `None`
(modelled as `Json.null`) when the key is absent. -/
def dictGet (fields : List (String × Json)) (k : String) : Json :=
  (fields.lookup k).getD .null

/-- Python `str.strip()`: the string without leading and trailing
whitespace. -/
def pyStrip (s : String) : String :=
  String.mk
    (((s.data.dropWhile Char.isWhitespace).reverse.dropWhile
        Char.isWhitespace).reverse)

/-- The canonical severity strings, in source order
(`[severity.value for severity in Severity]`). -/
def validSeverities : List String := ["Low", "Medium", "High"]

/-- The canonical status strings, in source order
(`[status.value for status in Status]`). -/
def validStatuses : List String := ["Open", "In Progress", "Resolved"]

/-- Rendering of the f-string `Severity must be {valid_severity}`. -/
def severityMessage : String :=
  "Severity must be [\x27Low\x27, \x27Medium\x27, \x27High\x27]"

/-- Rendering of the f-string `Status must be {valid_statuses}`. -/
def statusMessage : String :=
  "Status must be [\x27Open\x27, \x27In Progress\x27, \x27Resolved\x27]"

/-- Body of an error response:
`{"error": …[, "missing": …][, "message": …]}`. -/
structure ErrorResponse where
  error : String
  missing : Option (List String) := none
  message : Option String := none
deriving DecidableEq

/-- The `{"error": "No JSON data provided"}` body. -/
def noDataError : ErrorResponse := { error := "No JSON data provided" }

/-- The `{"error": "Invalid severity", "message": …}` body. -/
def severityError : ErrorResponse :=
  { error := "Invalid severity", message := some severityMessage }

/-- The `{"error": "Invalid status", "message": …}` body. -/
def invalidStatusError : ErrorResponse :=
  { error := "Invalid status", message := some statusMessage }

/-- The `{"error": "Incident not found"}` body. -/
def notFoundError : ErrorResponse := { error := "Incident not found" }

/-- One step of the list comprehension in `validate_fields`: is required
field `k` missing or blank?  `not data.get(k) or not data.get(k).strip()`.
A truthy non-string value has no `.strip()` and raises `AttributeError`. -/
def fieldMissing (fields : List (String × Json)) (k : String) :
    Except Unit Bool :=
  let v := dictGet fields k
  if pyTruthy v then
    match v with
    | .str s => .ok (pyStrip s == "")
    | _ => .error ()
  else
    .ok true

/-- The required creation fields, in the comprehension's fixed order
`("title", "description", "reported_by")`. -/
def requiredKeys : List String := ["title", "description", "reported_by"]

/-- The list comprehension
`[k for k in ("title", "description", "reported_by") if …]`:
collects every missing/blank required key, in order; the first
exception aborts the whole comprehension. -/
def collectMissing (fields : List (String × Json)) :
    List String → Except Unit (List String)
  | [] => .ok []
  | k :: ks =>
    match fieldMissing fields k with
    | .error e => .error e
    | .ok b =>
      match collectMissing fields ks with
      | .error e => .error e
      | .ok rest => .ok (if b then k :: rest else rest)

/-- Is a JSON value one of the canonical severity strings?
(`data["severity"] not in valid_severity`, negated; a non-string value
is unequal to every string.) -/
def validSeverityJson : Json → Bool
  | .str s => decide (s ∈ validSeverities)
  | _ => false

/-- The severity clause of `validate_fields`:
`if "severity" in data and data["severity"] not in valid_severity`. -/
def severityCheck (fields : List (String × Json)) : Option ErrorResponse :=
  match fields.lookup "severity" with
  | some v => if validSeverityJson v then none else some severityError
  | none => none

/-- Embedding of `validate_fields(data)`.  Returns `none` for a passing
payload, `some err` for a 400 error body, and raises for a truthy
non-dict payload (no `.get`) or a truthy non-string required field
(no `.strip`). -/
def validate_fields (data : Option Json) :
    Except Unit (Option ErrorResponse) :=
  match data with
  | none => .ok (some noDataError)
  | some j =>
    if pyTruthy j then
      match j with
      | .obj fields =>
        match collectMissing fields requiredKeys with
        | .error e => .error e
        | .ok missing =>
          if missing = [] then .ok (severityCheck fields)
          else .ok (some { error := "Missing required field(s)",
                           missing := some missing })
      | _ => .error ()
    else .ok (some noDataError)

/-- A persisted incident row.  `timestamp` is the abstract creation time;
`severity` and `status` are stored as their canonical strings, exactly as
the `db.String` columns do. -/
structure Incident where
  id : Nat
  title : String
  description : String
  reported_by : String
  severity : String
  status : String
  timestamp : Nat
deriving DecidableEq

/-- The record store: persisted rows plus the auto-increment counter. -/
structure Store where
  rows : List Incident
  nextId : Nat
deriving DecidableEq

/-- The store right after `db.create_all()`: empty, first id is 1. -/
def Store.init : Store := { rows := [], nextId := 1 }

/-- Response of `create_incident`: 201 with the new record, or 400. -/
inductive CreateResult where
  | created (incident : Incident)
  | badRequest (err : ErrorResponse)
deriving DecidableEq

/-- HTTP status code paired with each `create_incident` body. -/
def CreateResult.code : CreateResult → Nat
  | .created _ => 201
  | .badRequest _ => 400

/-- Embedding of the `POST /incidents` handler `create_incident`.
`now` is the value of `datetime.now(timezone.utc)` during the call.
On passing validation the handler reads `data["title"]`,
`data["description"]`, `data["reported_by"]` (raising on an absent or
non-string value, which validation has excluded) and
`data.get("severity", "Medium")`, then commits the new row. -/
def create_incident (st : Store) (data : Option Json) (now : Nat) :
    Except Unit (Store × CreateResult) :=
  match validate_fields data with
  | .error e => .error e
  | .ok (some err) => .ok (st, .badRequest err)
  | .ok none =>
    match data with
    | some (.obj fields) =>
      match fields.lookup "title", fields.lookup "description",
            fields.lookup "reported_by" with
      | some (.str t), some (.str d), some (.str r) =>
        let sev : String :=
          match fields.lookup "severity" with
          | some (.str s) => s
          | some _ => ""
          | none => "Medium"
        let incident : Incident :=
          { id := st.nextId, title := t, description := d,
            reported_by := r, severity := sev, status := "Open",
            timestamp := now }
        .ok ({ rows := st.rows ++ [incident], nextId := st.nextId + 1 },
             .created incident)
      | _, _, _ => .error ()
    | _ => .error ()

/-- Response of `get_incidents`: always 200 with the serialized rows and
their count. -/
structure ListResponse where
  incidents : List Incident
  total : Nat
  code : Nat
deriving DecidableEq

/-- The `if status_filter:` guard: applies the status filter only when the
query value is truthy (present and non-empty). -/
def filterStatus (f : Option String) (q : List Incident) : List Incident :=
  match f with
  | none => q
  | some s => if s = "" then q else q.filter (fun i => i.status == s)

/-- The `if severity_filter:` guard, analogous to `filterStatus`. -/
def filterSeverity (f : Option String) (q : List Incident) : List Incident :=
  match f with
  | none => q
  | some s => if s = "" then q else q.filter (fun i => i.severity == s)

/-- Ordering used by `order_by(Incident.timestamp.desc())`. -/
def tsDescOrder (a b : Incident) : Prop := b.timestamp ≤ a.timestamp

instance : DecidableRel tsDescOrder :=
  fun a b => Nat.decLe b.timestamp a.timestamp

instance : IsTotal Incident tsDescOrder :=
  ⟨fun a b => Nat.le_total b.timestamp a.timestamp⟩

instance : IsTrans Incident tsDescOrder :=
  ⟨fun _ _ _ hab hbc => Nat.le_trans hbc hab⟩

/-- Embedding of the `GET /incidents` handler `get_incidents`:
filter by truthy query values, order by timestamp descending, return the
rows and their count with HTTP 200. -/
def get_incidents (st : Store) (status_filter severity_filter : Option String) :
    ListResponse :=
  let results :=
    List.insertionSort tsDescOrder
      (filterSeverity severity_filter (filterStatus status_filter st.rows))
  { incidents := results, total := results.length, code := 200 }

/-- `db.session.get(Incident, incident_id)`: primary-key lookup. -/
def findIncident (st : Store) (incident_id : Nat) : Option Incident :=
  st.rows.find? (fun i => i.id == incident_id)

/-- Python `x == "status"` for a JSON array element. -/
def jsonIsStatusStr : Json → Bool
  | .str s => s == "status"
  | _ => false

/-- Does the character list contain `"status"` as a contiguous
substring?  (Python `"status" in s` for a string `s`.) -/
def hasStatusSub : List Char → Bool
  | [] => false
  | c :: t => ("status".data.isPrefixOf (c :: t)) || hasStatusSub t

/-- Python `"status" in data` for a truthy payload: key membership for a
dict, substring test for a string, element membership for a list, and a
`TypeError` for non-iterable values. -/
def hasStatusKey : Json → Except Unit Bool
  | .obj fields => .ok (fields.lookup "status").isSome
  | .str s => .ok (hasStatusSub s.data)
  | .arr elems => .ok (elems.any jsonIsStatusStr)
  | _ => .error ()

/-- Python `data["status"]` (only reached when `"status" in data`):
the dict value, or a `TypeError` when subscripting a string or list
with a string key. -/
def getStatusItem : Json → Except Unit Json
  | .obj fields => .ok (dictGet fields "status")
  | _ => .error ()

/-- Per-row effect of `incident.status = v` followed by `commit`:
only the row with the matching primary key changes, and only its
`status` field. -/
def setStatus (v : String) (target : Nat) (i : Incident) : Incident :=
  if i.id == target then { i with status := v } else i

/-- Response of `update_incident`: 404, 400, or 200 with the record. -/
inductive UpdateResult where
  | notFound (err : ErrorResponse)
  | badRequest (err : ErrorResponse)
  | updated (incident : Incident)
deriving DecidableEq

/-- HTTP status code paired with each `update_incident` body. -/
def UpdateResult.code : UpdateResult → Nat
  | .notFound _ => 404
  | .badRequest _ => 400
  | .updated _ => 200

/-- Embedding of the `PATCH /incidents/{id}` handler `update_incident`. -/
def update_incident (st : Store) (incident_id : Nat) (data : Option Json) :
    Except Unit (Store × UpdateResult) :=
  match findIncident st incident_id with
  | none => .ok (st, .notFound notFoundError)
  | some incident =>
    match data with
    | none => .ok (st, .badRequest noDataError)
    | some j =>
      if pyTruthy j then
        match hasStatusKey j with
        | .error e => .error e
        | .ok true =>
          match getStatusItem j with
          | .error e => .error e
          | .ok (.str s) =>
            if s ∈ validStatuses then
              .ok ({ st with rows := st.rows.map (setStatus s incident_id) },
                   .updated { incident with status := s })
            else .ok (st, .badRequest invalidStatusError)
          | .ok _ => .ok (st, .badRequest invalidStatusError)
        | .ok false => .ok (st, .updated incident)
      else .ok (st, .badRequest noDataError)

/-- Response of `delete_incident`: 404, or 200 with the confirmation
message and the pre-deletion snapshot. -/
inductive DeleteResult where
  | notFound (err : ErrorResponse)
  | deleted (message : String) (deleted_incident : Incident)
deriving DecidableEq

/-- HTTP status code paired with each `delete_incident` body. -/
def DeleteResult.code : DeleteResult → Nat
  | .notFound _ => 404
  | .deleted _ _ => 200

/-- Embedding of the `DELETE /incidents/{id}` handler `delete_incident`:
snapshot the row, delete it by primary key, confirm. -/
def delete_incident (st : Store) (incident_id : Nat) : Store × DeleteResult :=
  match findIncident st incident_id with
  | none => (st, .notFound notFoundError)
  | some incident =>
    ({ st with rows := st.rows.filter (fun i => i.id != incident_id) },
     .deleted "Incident deleted successfully" incident)

deriving instance DecidableEq for Except

/-- Field-validity part of the data-model invariant: canonical severity
and status strings, and the three required text fields non-empty after
stripping whitespace. -/
def Incident.Valid (i : Incident) : Prop :=
  i.severity ∈ validSeverities ∧ i.status ∈ validStatuses ∧
  pyStrip i.title ≠ "" ∧ pyStrip i.description ≠ "" ∧
  pyStrip i.reported_by ≠ ""

/-- Structural store invariant: every persisted id is below the
auto-increment counter, and ids are pairwise distinct. -/
def Store.WF (st : Store) : Prop :=
  (∀ i ∈ st.rows, i.id < st.nextId) ∧
  st.rows.Pairwise (fun a b => a.id ≠ b.id)

/-- Full store invariant: well-formed ids plus valid fields. -/
def Store.Inv (st : Store) : Prop :=
  st.WF ∧ ∀ i ∈ st.rows, i.Valid

/-- Store states reachable from the initial (freshly created) database by
any sequence of create, update and delete requests.  A request that
raises leaves the store unchanged (every raise happens before the
commit), so only normally-returning steps appear. -/
inductive Reachable : Store → Prop where
  | init : Reachable Store.init
  | create_step (st st' : Store) (data : Option Json) (now : Nat)
      (r : CreateResult) : Reachable st →
      create_incident st data now = .ok (st', r) → Reachable st'
  | update_step (st st' : Store) (incident_id : Nat) (data : Option Json)
      (r : UpdateResult) : Reachable st →
      update_incident st incident_id data = .ok (st', r) → Reachable st'
  | delete_step (st : Store) (incident_id : Nat) : Reachable st →
      Reachable (delete_incident st incident_id).1

/-- A minimal valid creation payload used for concrete witnesses. -/
def demoPayload : Json :=
  .obj [("title", .str "T"), ("description", .str "D"),
        ("reported_by", .str "R")]

/-- The record `create_incident` persists for `demoPayload` at time 0 on
the initial store. -/
def demoIncident : Incident :=
  { id := 1, title := "T", description := "D", reported_by := "R",
    severity := "Medium", status := "Open", timestamp := 0 }

/-- The store holding exactly `demoIncident`. -/
def demoStore : Store := { rows := [demoIncident], nextId := 2 }

/-- Did the comprehension step for key `k` run without raising? -/
def fieldCheckOk (fields : List (String × Json)) (k : String) : Bool :=
  match fieldMissing fields k with
  | .ok _ => true
  | .error _ => false

/-- Did the comprehension step for key `k` classify it missing/blank? -/
def blankField (fields : List (String × Json)) (k : String) : Bool :=
  match fieldMissing fields k with
  | .ok b => b
  | .error _ => false

/-- Status/severity predicate a row must satisfy to survive both truthy
filters of `get_incidents`. -/
def matchesFilters (status_filter severity_filter : Option String)
    (i : Incident) : Bool :=
  (match status_filter with
   | none => true
   | some s => if s = "" then true else i.status == s) &&
  (match severity_filter with
   | none => true
   | some s => if s = "" then true else i.severity == s)

/-- The record `update_incident` leaves in `demoStore` after a valid
status update to Resolved. -/
def demoResolved : Incident := { demoIncident with status := "Resolved" }

theorem pyStrip_empty : pyStrip "" = "" := rfl

theorem ne_empty_of_pyStrip_ne {s : String} (h : pyStrip s ≠ "") :
    s ≠ "" := by
  intro he
  exact h (by rw [he]; rfl)

theorem fieldMissing_eq_ok_false {fields : List (String × Json)}
    {k : String} {s : String} (hl : fields.lookup k = some (.str s))
    (hs : pyStrip s ≠ "") : fieldMissing fields k = .ok false := by
  have hne : s ≠ "" := ne_empty_of_pyStrip_ne hs
  simp [fieldMissing, dictGet, hl, pyTruthy, bne_iff_ne, hne,
    beq_eq_false_iff_ne, hs]

theorem fieldMissing_false_elim {fields : List (String × Json)}
    {k : String} (h : fieldMissing fields k = .ok false) :
    ∃ s, fields.lookup k = some (.str s) ∧ pyStrip s ≠ "" := by
  cases hl : fields.lookup k with
  | none =>
    simp only [fieldMissing, dictGet, hl, Option.getD_none, pyTruthy] at h
    simp at h
  | some v =>
    simp only [fieldMissing, dictGet, hl, Option.getD_some] at h
    cases v with
    | str s =>
      refine ⟨s, rfl, ?_⟩
      by_cases hne : s = ""
      · subst hne; simp [pyTruthy] at h
      · simp only [pyTruthy, bne_iff_ne, ne_eq, hne, not_false_eq_true,
          if_true, Except.ok.injEq] at h
        exact beq_eq_false_iff_ne.mp h
    | null => simp [pyTruthy] at h
    | bool b => cases b <;> simp [pyTruthy] at h
    | num n =>
      by_cases hz : n = 0
      · subst hz; simp [pyTruthy] at h
      · simp [pyTruthy, bne_iff_ne, hz] at h
    | arr elems => cases elems <;> simp [pyTruthy] at h
    | obj fs => cases fs <;> simp [pyTruthy] at h

theorem collectMissing_ok_nil {fields : List (String × Json)} :
    ∀ {ks : List String}, collectMissing fields ks = .ok [] →
      ∀ k ∈ ks, fieldMissing fields k = .ok false := by
  intro ks
  induction ks with
  | nil => intro _ k hk; cases hk
  | cons a as ih =>
    intro h k hk
    unfold collectMissing at h
    cases hf : fieldMissing fields a with
    | error e => rw [hf] at h; simp at h
    | ok b =>
      rw [hf] at h
      cases hc : collectMissing fields as with
      | error e => rw [hc] at h; simp at h
      | ok rest =>
        rw [hc] at h
        simp only [Except.ok.injEq] at h
        cases b with
        | true => simp at h
        | false =>
          simp only [Bool.false_eq_true, if_false] at h
          rcases List.mem_cons.mp hk with rfl | hk2
          · exact hf
          · exact ih (by rw [hc, h]) k hk2

theorem isEmpty_false_of_ne_nil {α : Type} {l : List α} (h : l ≠ []) :
    l.isEmpty = false := by
  cases l with
  | nil => exact absurd rfl h
  | cons a as => rfl

theorem validate_fields_of_valid {fields : List (String × Json)}
    {t d r : String}
    (ht : fields.lookup "title" = some (.str t)) (ht2 : pyStrip t ≠ "")
    (hd : fields.lookup "description" = some (.str d))
    (hd2 : pyStrip d ≠ "")
    (hr : fields.lookup "reported_by" = some (.str r))
    (hr2 : pyStrip r ≠ "")
    (hs : fields.lookup "severity" = none ∨
      ∃ s, fields.lookup "severity" = some (.str s) ∧ s ∈ validSeverities) :
    validate_fields (some (.obj fields)) = .ok none := by
  have h1 := fieldMissing_eq_ok_false ht ht2
  have h2 := fieldMissing_eq_ok_false hd hd2
  have h3 := fieldMissing_eq_ok_false hr hr2
  have hne : fields ≠ [] := by
    intro he; rw [he] at ht; simp at ht
  have hcm : collectMissing fields requiredKeys = .ok [] := by
    simp [collectMissing, requiredKeys, h1, h2, h3]
  simp only [validate_fields, pyTruthy, isEmpty_false_of_ne_nil hne,
    Bool.not_false, if_true, hcm, if_pos rfl, severityCheck]
  rcases hs with hs | ⟨s, hs1, hs2⟩
  · rw [hs]
  · rw [hs1]
    simp [validSeverityJson, hs2]

theorem validate_fields_ok_none_elim {data : Option Json}
    (h : validate_fields data = .ok none) :
    ∃ fields, data = some (.obj fields) ∧
      (∀ k ∈ requiredKeys,
        ∃ s, fields.lookup k = some (.str s) ∧ pyStrip s ≠ "") ∧
      (fields.lookup "severity" = none ∨
        ∃ s, fields.lookup "severity" = some (.str s) ∧
          s ∈ validSeverities) := by
  cases data with
  | none => simp [validate_fields, noDataError] at h
  | some j =>
    cases j with
    | obj fields =>
      by_cases hne : fields.isEmpty = true
      · simp [validate_fields, pyTruthy, hne] at h
      · rw [Bool.not_eq_true] at hne
        simp only [validate_fields, pyTruthy, hne, Bool.not_false,
          if_true] at h
        cases hcm : collectMissing fields requiredKeys with
        | error e => simp [hcm] at h
        | ok missing =>
          by_cases hm : missing = []
          · subst hm
            simp [hcm] at h
            refine ⟨fields, rfl, ?_, ?_⟩
            · exact fun k hk =>
                fieldMissing_false_elim (collectMissing_ok_nil hcm k hk)
            · unfold severityCheck at h
              cases hl : fields.lookup "severity" with
              | none => exact Or.inl rfl
              | some v =>
                rw [hl] at h
                have h2 : (if validSeverityJson v = true then none
                    else some severityError) =
                    (none : Option ErrorResponse) := h
                cases hv : validSeverityJson v with
                | false => rw [hv] at h2; simp at h2
                | true =>
                  refine Or.inr ?_
                  cases v with
                  | str s =>
                    exact ⟨s, rfl, by
                      simpa [validSeverityJson] using hv⟩
                  | null => simp [validSeverityJson] at hv
                  | bool b => simp [validSeverityJson] at hv
                  | num n => simp [validSeverityJson] at hv
                  | arr elems => simp [validSeverityJson] at hv
                  | obj fs => simp [validSeverityJson] at hv
          · simp [hcm, hm] at h
    | null => simp [validate_fields, pyTruthy, noDataError] at h
    | bool b => cases b <;> simp [validate_fields, pyTruthy, noDataError] at h
    | num n =>
      by_cases hz : n = 0
      · subst hz; simp [validate_fields, pyTruthy, noDataError] at h
      · simp [validate_fields, pyTruthy, bne_iff_ne, hz, noDataError] at h
    | str s =>
      by_cases hz : s = ""
      · subst hz; simp [validate_fields, pyTruthy, noDataError] at h
      · simp [validate_fields, pyTruthy, bne_iff_ne, hz, noDataError] at h
    | arr elems => cases elems <;>
        simp [validate_fields, pyTruthy, noDataError] at h

theorem create_ok_shape {st st' : Store} {data : Option Json} {now : Nat}
    {r : CreateResult} (h : create_incident st data now = .ok (st', r)) :
    (st' = st ∧ ∃ e, r = .badRequest e) ∨
    (∃ incident : Incident,
      st' = { rows := st.rows ++ [incident], nextId := st.nextId + 1 } ∧
      r = .created incident ∧ incident.id = st.nextId ∧
      incident.timestamp = now ∧
      incident.status = "Open" ∧ incident.severity ∈ validSeverities ∧
      pyStrip incident.title ≠ "" ∧ pyStrip incident.description ≠ "" ∧
      pyStrip incident.reported_by ≠ "") := by
  cases hv : validate_fields data with
  | error e => simp [create_incident, hv] at h
  | ok o =>
    cases o with
    | some err =>
      simp only [create_incident, hv, Except.ok.injEq, Prod.mk.injEq] at h
      exact Or.inl ⟨h.1.symm, err, h.2.symm⟩
    | none =>
      obtain ⟨fields, rfl, hreq, hsev⟩ := validate_fields_ok_none_elim hv
      obtain ⟨t, hlt, htne⟩ := hreq "title" (by simp [requiredKeys])
      obtain ⟨d, hld, hdne⟩ := hreq "description" (by simp [requiredKeys])
      obtain ⟨rb, hlr, hrne⟩ := hreq "reported_by" (by simp [requiredKeys])
      simp only [create_incident, hv, hlt, hld, hlr] at h
      rcases hsev with hno | ⟨s, hsome, hmem⟩
      · rw [hno] at h
        simp only [Except.ok.injEq, Prod.mk.injEq] at h
        refine Or.inr ⟨_, h.1.symm, h.2.symm, rfl, rfl, rfl, ?_,
          htne, hdne, hrne⟩
        simp [validSeverities]
      · rw [hsome] at h
        simp only [Except.ok.injEq, Prod.mk.injEq] at h
        exact Or.inr ⟨_, h.1.symm, h.2.symm, rfl, rfl, rfl, hmem,
          htne, hdne, hrne⟩

theorem update_ok_shape {st st' : Store} {incident_id : Nat}
    {data : Option Json} {r : UpdateResult}
    (h : update_incident st incident_id data = .ok (st', r)) :
    st' = st ∨
    ∃ s, s ∈ validStatuses ∧
      st' = { st with rows := st.rows.map (setStatus s incident_id) } := by
  cases hf : findIncident st incident_id with
  | none =>
    simp only [update_incident, hf, Except.ok.injEq, Prod.mk.injEq] at h
    exact Or.inl h.1.symm
  | some incident =>
    cases data with
    | none =>
      simp only [update_incident, hf, Except.ok.injEq, Prod.mk.injEq] at h
      exact Or.inl h.1.symm
    | some j =>
      by_cases hj : pyTruthy j = true
      · cases hk : hasStatusKey j with
        | error e => simp [update_incident, hf, hj, hk] at h
        | ok b =>
          cases b with
          | false =>
            simp only [update_incident, hf, hj, hk, if_true,
              Except.ok.injEq, Prod.mk.injEq] at h
            exact Or.inl h.1.symm
          | true =>
            cases hg : getStatusItem j with
            | error e => simp [update_incident, hf, hj, hk, hg] at h
            | ok v =>
              cases v with
              | str s =>
                by_cases hm : s ∈ validStatuses
                · simp only [update_incident, hf, hj, hk, hg, hm,
                    if_true, Except.ok.injEq, Prod.mk.injEq] at h
                  exact Or.inr ⟨s, hm, h.1.symm⟩
                · simp only [update_incident, hf, hj, hk, hg, hm,
                    if_false, if_true, Except.ok.injEq, Prod.mk.injEq] at h
                  exact Or.inl h.1.symm
              | null =>
                simp only [update_incident, hf, hj, hk, hg, if_true,
                  Except.ok.injEq, Prod.mk.injEq] at h
                exact Or.inl h.1.symm
              | bool c =>
                simp only [update_incident, hf, hj, hk, hg, if_true,
                  Except.ok.injEq, Prod.mk.injEq] at h
                exact Or.inl h.1.symm
              | num n =>
                simp only [update_incident, hf, hj, hk, hg, if_true,
                  Except.ok.injEq, Prod.mk.injEq] at h
                exact Or.inl h.1.symm
              | arr elems =>
                simp only [update_incident, hf, hj, hk, hg, if_true,
                  Except.ok.injEq, Prod.mk.injEq] at h
                exact Or.inl h.1.symm
              | obj fs =>
                simp only [update_incident, hf, hj, hk, hg, if_true,
                  Except.ok.injEq, Prod.mk.injEq] at h
                exact Or.inl h.1.symm
      · rw [Bool.not_eq_true] at hj
        simp only [update_incident, hf, hj, Bool.false_eq_true, if_false,
          Except.ok.injEq, Prod.mk.injEq] at h
        exact Or.inl h.1.symm

theorem setStatus_id (v : String) (target : Nat) (i : Incident) :
    (setStatus v target i).id = i.id := by
  unfold setStatus; split <;> rfl

theorem setStatus_frame (v : String) (target : Nat) (i : Incident) :
    (setStatus v target i).id = i.id ∧
    (setStatus v target i).title = i.title ∧
    (setStatus v target i).description = i.description ∧
    (setStatus v target i).reported_by = i.reported_by ∧
    (setStatus v target i).severity = i.severity ∧
    (setStatus v target i).timestamp = i.timestamp := by
  unfold setStatus; split <;> exact ⟨rfl, rfl, rfl, rfl, rfl, rfl⟩

theorem setStatus_status (v : String) (target : Nat) (i : Incident) :
    (setStatus v target i).status = i.status ∨
    (setStatus v target i).status = v := by
  unfold setStatus; split
  · exact Or.inr rfl
  · exact Or.inl rfl

theorem create_preserves_Inv {st st' : Store} {data : Option Json}
    {now : Nat} {r : CreateResult}
    (h : create_incident st data now = .ok (st', r)) (hInv : st.Inv) :
    st'.Inv := by
  rcases create_ok_shape h with ⟨rfl, _⟩ |
    ⟨inc, rfl, _, hid, _, hstat, hsev, ht, hd, hr⟩
  · exact hInv
  · obtain ⟨⟨hbound, hpw⟩, hvalid⟩ := hInv
    refine ⟨⟨?_, ?_⟩, ?_⟩
    · intro i hi
      rcases List.mem_append.mp hi with hi | hi
      · exact Nat.lt_succ_of_lt (hbound i hi)
      · rcases List.mem_singleton.mp hi with rfl
        rw [hid]; exact Nat.lt_succ_self _
    · rw [List.pairwise_append]
      refine ⟨hpw, List.pairwise_singleton _ _, ?_⟩
      intro a ha b hb
      rcases List.mem_singleton.mp hb with rfl
      have hlt : a.id < b.id := by rw [hid]; exact hbound a ha
      exact Nat.ne_of_lt hlt
    · intro i hi
      rcases List.mem_append.mp hi with hi | hi
      · exact hvalid i hi
      · rcases List.mem_singleton.mp hi with rfl
        exact ⟨hsev, by rw [hstat]; simp [validStatuses], ht, hd, hr⟩

theorem update_preserves_Inv {st st' : Store} {incident_id : Nat}
    {data : Option Json} {r : UpdateResult}
    (h : update_incident st incident_id data = .ok (st', r))
    (hInv : st.Inv) : st'.Inv := by
  rcases update_ok_shape h with rfl | ⟨s, hs, rfl⟩
  · exact hInv
  · obtain ⟨⟨hbound, hpw⟩, hvalid⟩ := hInv
    refine ⟨⟨?_, ?_⟩, ?_⟩
    · intro i hi
      rcases List.mem_map.mp hi with ⟨a, ha, rfl⟩
      rw [setStatus_id]; exact hbound a ha
    · rw [List.pairwise_map]
      refine hpw.imp ?_
      intro a b hab
      rw [setStatus_id, setStatus_id]; exact hab
    · intro i hi
      rcases List.mem_map.mp hi with ⟨a, ha, rfl⟩
      obtain ⟨hv1, hv2, hv3, hv4, hv5⟩ := hvalid a ha
      obtain ⟨_, hft, hfd, hfr, hfs, _⟩ := setStatus_frame s incident_id a
      refine ⟨by rw [hfs]; exact hv1, ?_, by rw [hft]; exact hv3,
        by rw [hfd]; exact hv4, by rw [hfr]; exact hv5⟩
      rcases setStatus_status s incident_id a with hss | hss
      · rw [hss]; exact hv2
      · rw [hss]; exact hs

theorem delete_preserves_Inv (st : Store) (incident_id : Nat)
    (hInv : st.Inv) : (delete_incident st incident_id).1.Inv := by
  unfold delete_incident
  cases hf : findIncident st incident_id with
  | none => exact hInv
  | some incident =>
    obtain ⟨⟨hbound, hpw⟩, hvalid⟩ := hInv
    refine ⟨⟨?_, ?_⟩, ?_⟩
    · intro i hi; exact hbound i (List.mem_of_mem_filter hi)
    · exact hpw.filter _
    · intro i hi; exact hvalid i (List.mem_of_mem_filter hi)

theorem init_Inv : Store.Inv Store.init := by
  refine ⟨⟨?_, ?_⟩, ?_⟩ <;> simp [Store.init]

theorem reachable_Inv {st : Store} (h : Reachable st) : st.Inv := by
  induction h with
  | init => exact init_Inv
  | create_step st st' data now r hr heq ih => exact create_preserves_Inv heq ih
  | update_step st st' incident_id data r hr heq ih =>
    exact update_preserves_Inv heq ih
  | delete_step st incident_id hr ih => exact delete_preserves_Inv st incident_id ih

/-- C1: for every valid creation payload (string title, description and
reported_by that are non-blank after stripping; severity key absent or one
of the canonical severities), `create_incident` persists exactly one new
record and returns it with HTTP 201; the record has status "Open",
severity equal to the input severity (or "Medium" when the key was
omitted), and an id different from the id of every record already in the
store. -/
theorem create_incident_valid_payload
    (st : Store) (fields : List (String × Json)) (now : Nat)
    (t d r : String) (hWF : st.WF)
    (ht : fields.lookup "title" = some (.str t)) (ht2 : pyStrip t ≠ "")
    (hd : fields.lookup "description" = some (.str d))
    (hd2 : pyStrip d ≠ "")
    (hr : fields.lookup "reported_by" = some (.str r))
    (hr2 : pyStrip r ≠ "")
    (hs : fields.lookup "severity" = none ∨
      ∃ s, fields.lookup "severity" = some (.str s) ∧ s ∈ validSeverities) :
    ∃ incident : Incident,
      create_incident st (some (.obj fields)) now =
        .ok ({ rows := st.rows ++ [incident], nextId := st.nextId + 1 },
          .created incident) ∧
      (CreateResult.created incident).code = 201 ∧
      incident.status = "Open" ∧
      (∀ s, fields.lookup "severity" = some (.str s) →
        incident.severity = s) ∧
      (fields.lookup "severity" = none → incident.severity = "Medium") ∧
      (∀ i ∈ st.rows, i.id ≠ incident.id) := by
  have hval := validate_fields_of_valid ht ht2 hd hd2 hr hr2 hs
  refine ⟨{ id := st.nextId, title := t, description := d,
            reported_by := r,
            severity := match fields.lookup "severity" with
                        | some (.str s) => s
                        | some _ => ""
                        | none => "Medium",
            status := "Open", timestamp := now },
          ?_, rfl, rfl, ?_, ?_, ?_⟩
  · simp only [create_incident, hval, ht, hd, hr]
  · intro s hsome; rw [hsome]
  · intro hnone; rw [hnone]
  · intro i hi
    exact Nat.ne_of_lt (hWF.1 i hi)

/-- Witness for C1 at a concrete store and payload. -/
theorem create_incident_valid_payload_witness :
    ∃ incident : Incident,
      create_incident demoStore
          (some (.obj [("title", .str "Server down"),
                       ("description", .str "API returns 500"),
                       ("reported_by", .str "Ana"),
                       ("severity", .str "High")])) 7 =
        .ok ({ rows := demoStore.rows ++ [incident],
               nextId := demoStore.nextId + 1 }, .created incident) ∧
      (CreateResult.created incident).code = 201 ∧
      incident.status = "Open" ∧
      (∀ s, ([("title", Json.str "Server down"),
              ("description", Json.str "API returns 500"),
              ("reported_by", Json.str "Ana"),
              ("severity", Json.str "High")] :
                List (String × Json)).lookup "severity" =
          some (.str s) → incident.severity = s) ∧
      (([("title", Json.str "Server down"),
         ("description", Json.str "API returns 500"),
         ("reported_by", Json.str "Ana"),
         ("severity", Json.str "High")] :
           List (String × Json)).lookup "severity" = none →
        incident.severity = "Medium") ∧
      (∀ i ∈ demoStore.rows, i.id ≠ incident.id) :=
  create_incident_valid_payload demoStore _ 7 "Server down"
    "API returns 500" "Ana" ⟨by decide, by decide⟩ rfl (by decide)
    rfl (by decide) rfl (by decide)
    (Or.inr ⟨"High", rfl, by decide⟩)

/-- C2: in every store state reachable by any sequence of create, update
and delete requests, persisted incidents have pairwise distinct ids, and
every persisted incident has a canonical severity, a canonical status,
and title, description and reported_by non-empty after stripping
whitespace. -/
theorem reachable_store_invariants (st : Store) (h : Reachable st) :
    st.rows.Pairwise (fun a b => a.id ≠ b.id) ∧
    ∀ i ∈ st.rows, i.Valid :=
  ⟨(reachable_Inv h).1.2, (reachable_Inv h).2⟩

/-- Witness for C2 at the concrete reachable store `demoStore`. -/
theorem reachable_store_invariants_witness :
    demoStore.rows.Pairwise (fun a b => a.id ≠ b.id) ∧
    ∀ i ∈ demoStore.rows, i.Valid :=
  reachable_store_invariants demoStore
    (Reachable.create_step Store.init demoStore (some demoPayload) 0
      (.created demoIncident) Reachable.init (by decide))

/-- C4: whenever validation fails for a create request — for any reason
the validator reports — `create_incident` returns that 400 error body and
the store is completely unchanged: no record is persisted. -/
theorem create_validation_error_no_persist
    (st : Store) (data : Option Json) (now : Nat) (err : ErrorResponse)
    (h : validate_fields data = .ok (some err)) :
    create_incident st data now = .ok (st, .badRequest err) ∧
    (CreateResult.badRequest err).code = 400 := by
  constructor
  · unfold create_incident
    rw [h]
  · rfl

/-- Witness for C4: creating with severity "important" returns the 400
invalid-severity body and leaves the initial store unchanged. -/
theorem create_validation_error_no_persist_witness :
    create_incident Store.init
        (some (.obj [("title", .str "t"), ("description", .str "d"),
                     ("reported_by", .str "r"),
                     ("severity", .str "important")])) 0 =
      .ok (Store.init, .badRequest severityError) ∧
    (CreateResult.badRequest severityError).code = 400 :=
  create_validation_error_no_persist Store.init
    (some (.obj [("title", .str "t"), ("description", .str "d"),
                 ("reported_by", .str "r"),
                 ("severity", .str "important")])) 0 severityError
    (by decide)

/-- C10 (failing input): a payload whose required field `title` holds the
JSON number 1 — truthy but not a string — makes the validation logic of
`create_incident` raise an unhandled `AttributeError` (`int` has no
`strip`) instead of returning a 201 or a structured 400 body. -/
theorem create_nonstring_field_raises :
    create_incident Store.init
        (some (.obj [("title", .num 1), ("description", .str "x"),
                     ("reported_by", .str "y")])) 0 = .error () := by
  decide

/-- C3 (amended): for a create request, an absent payload — and, as the
code also does, an empty/falsy one — yields the generic no-data error;
for a present non-empty dict payload on which no field check raises, all
missing/blank required fields are collected together (not fail-fast) as
the sublist of the fixed order (title, description, reported_by), and the
severity check is consulted only when that list is empty. -/
theorem create_validation_order
    (fields : List (String × Json)) (hne : fields ≠ [])
    (hok : ∀ k ∈ requiredKeys, fieldCheckOk fields k = true) :
    validate_fields none = .ok (some noDataError) ∧
    collectMissing fields requiredKeys =
      .ok (requiredKeys.filter (blankField fields)) ∧
    (requiredKeys.filter (blankField fields) ≠ [] →
      validate_fields (some (.obj fields)) =
        .ok (some { error := "Missing required field(s)",
                    missing := some
                      (requiredKeys.filter (blankField fields)) })) ∧
    (requiredKeys.filter (blankField fields) = [] →
      validate_fields (some (.obj fields)) =
        .ok (severityCheck fields)) := by
  have h1 := hok "title" (by simp [requiredKeys])
  have h2 := hok "description" (by simp [requiredKeys])
  have h3 := hok "reported_by" (by simp [requiredKeys])
  obtain ⟨b1, hb1⟩ : ∃ b, fieldMissing fields "title" = .ok b := by
    revert h1; unfold fieldCheckOk
    cases fieldMissing fields "title" with
    | ok b => exact fun _ => ⟨b, rfl⟩
    | error e => intro hc; simp at hc
  obtain ⟨b2, hb2⟩ : ∃ b, fieldMissing fields "description" = .ok b := by
    revert h2; unfold fieldCheckOk
    cases fieldMissing fields "description" with
    | ok b => exact fun _ => ⟨b, rfl⟩
    | error e => intro hc; simp at hc
  obtain ⟨b3, hb3⟩ : ∃ b, fieldMissing fields "reported_by" = .ok b := by
    revert h3; unfold fieldCheckOk
    cases fieldMissing fields "reported_by" with
    | ok b => exact fun _ => ⟨b, rfl⟩
    | error e => intro hc; simp at hc
  have hcm : collectMissing fields requiredKeys =
      .ok (requiredKeys.filter (blankField fields)) := by
    simp only [requiredKeys, collectMissing, hb1, hb2, hb3,
      List.filter, blankField]
    cases b1 <;> cases b2 <;> cases b3 <;> simp
  have hemp := isEmpty_false_of_ne_nil hne
  refine ⟨rfl, hcm, ?_, ?_⟩
  · intro hnem
    simp only [validate_fields, pyTruthy, hemp, Bool.not_false, if_true,
      hcm]
    rw [if_neg hnem]
  · intro hem
    simp only [validate_fields, pyTruthy, hemp, Bool.not_false, if_true,
      hcm]
    rw [if_pos hem]

/-- Witness for C3 at a concrete payload missing title and reported_by. -/
theorem create_validation_order_witness :
    validate_fields none = .ok (some noDataError) ∧
    collectMissing [("description", Json.str "D")] requiredKeys =
      .ok (requiredKeys.filter
        (blankField [("description", Json.str "D")])) ∧
    (requiredKeys.filter (blankField [("description", Json.str "D")]) ≠
        [] →
      validate_fields (some (.obj [("description", Json.str "D")])) =
        .ok (some { error := "Missing required field(s)",
                    missing := some (requiredKeys.filter
                      (blankField [("description", Json.str "D")])) })) ∧
    (requiredKeys.filter (blankField [("description", Json.str "D")]) =
        [] →
      validate_fields (some (.obj [("description", Json.str "D")])) =
        .ok (severityCheck [("description", Json.str "D")])) :=
  create_validation_order [("description", Json.str "D")]
    (List.cons_ne_nil _ _) (by decide)

/-- C3 counterexample: the payload that is the empty JSON object is
present, and every required field is missing, yet `create_incident`
reports the generic no-data error rather than the missing list
(title, description, reported_by). -/
theorem create_empty_object_counterexample :
    create_incident Store.init (some (.obj [])) 0 =
      .ok (Store.init, .badRequest noDataError) ∧
    create_incident Store.init (some (.obj [])) 0 ≠
      .ok (Store.init,
        .badRequest { error := "Missing required field(s)",
                      missing := some ["title", "description",
                                       "reported_by"] }) := by
  decide

theorem filters_eq_filter (sf sev : Option String) (l : List Incident) :
    filterSeverity sev (filterStatus sf l) =
      l.filter (fun i => matchesFilters sf sev i) := by
  cases sf with
  | none =>
    cases sev with
    | none => simp [filterStatus, filterSeverity, matchesFilters]
    | some s =>
      by_cases hs : s = ""
      · subst hs; simp [filterStatus, filterSeverity, matchesFilters]
      · simp [filterStatus, filterSeverity, matchesFilters, hs]
  | some s =>
    by_cases hs : s = ""
    · subst hs
      cases sev with
      | none => simp [filterStatus, filterSeverity, matchesFilters]
      | some s2 =>
        by_cases hs2 : s2 = ""
        · subst hs2; simp [filterStatus, filterSeverity, matchesFilters]
        · simp [filterStatus, filterSeverity, matchesFilters, hs2]
    · cases sev with
      | none => simp [filterStatus, filterSeverity, matchesFilters, hs]
      | some s2 =>
        by_cases hs2 : s2 = ""
        · subst hs2
          simp [filterStatus, filterSeverity, matchesFilters, hs]
        · simp only [filterStatus, filterSeverity, matchesFilters, hs,
            hs2, if_false, List.filter_filter]
          refine List.filter_congr ?_
          intro i hi
          rw [Bool.and_comm]

/-- C5 (amended): for every store state and every combination of status
and severity query values, `get_incidents` answers HTTP 200 with a total
equal to the number of returned records; the returned sequence is a
permutation of exactly the persisted records matching the truthy filters
(exact string equality, ANDed; an empty-string query value is ignored
like an absent one), ordered by timestamp descending.  An empty result is
not an error: it is the empty sequence with total 0 under the same
HTTP 200. -/
theorem get_incidents_spec (st : Store) (sf sev : Option String) :
    (get_incidents st sf sev).code = 200 ∧
    (get_incidents st sf sev).total =
      (get_incidents st sf sev).incidents.length ∧
    List.Perm (get_incidents st sf sev).incidents
      (st.rows.filter (fun i => matchesFilters sf sev i)) ∧
    List.Sorted tsDescOrder (get_incidents st sf sev).incidents := by
  refine ⟨rfl, rfl, ?_, ?_⟩
  · show List.Perm (List.insertionSort tsDescOrder
      (filterSeverity sev (filterStatus sf st.rows)))
      (st.rows.filter (fun i => matchesFilters sf sev i))
    rw [filters_eq_filter]
    exact List.perm_insertionSort tsDescOrder _
  · exact List.sorted_insertionSort tsDescOrder _

/-- C5 counterexample: with a status filter present with the empty-string
value, `get_incidents` returns every stored record, although no stored
record has a status equal to the filter value "". -/
theorem get_incidents_blank_filter_counterexample :
    (get_incidents demoStore (some "") none).incidents = [demoIncident] ∧
    demoStore.rows.filter (fun i => i.status == "") = [] := by
  decide

/-- C6: updating an existing incident with a payload whose status value
is not exactly one of the canonical statuses returns HTTP 400 with error
"Invalid status" and a message naming the allowed values, and performs no
mutation: the store, including the stored record, is unchanged. -/
theorem update_invalid_status_spec
    (st : Store) (incident_id : Nat) (fields : List (String × Json))
    (incident : Incident) (v : Json)
    (hfind : findIncident st incident_id = some incident)
    (hstat : fields.lookup "status" = some v)
    (hinv : ∀ s, v = Json.str s → s ∉ validStatuses) :
    update_incident st incident_id (some (.obj fields)) =
      .ok (st, .badRequest invalidStatusError) ∧
    invalidStatusError.error = "Invalid status" ∧
    invalidStatusError.message = some statusMessage ∧
    (UpdateResult.badRequest invalidStatusError).code = 400 := by
  have hne : fields ≠ [] := by intro he; rw [he] at hstat; simp at hstat
  have hemp := isEmpty_false_of_ne_nil hne
  refine ⟨?_, rfl, rfl, rfl⟩
  have hkey : hasStatusKey (.obj fields) = .ok true := by
    simp [hasStatusKey, hstat]
  have hget : getStatusItem (.obj fields) = .ok v := by
    simp [getStatusItem, dictGet, hstat]
  simp only [update_incident, hfind, pyTruthy, hemp, Bool.not_false,
    if_true, hkey, hget]
  cases v with
  | str s =>
    have hnot := hinv s rfl
    exact if_neg hnot
  | null => rfl
  | bool b => rfl
  | num n => rfl
  | arr elems => rfl
  | obj fs => rfl

/-- Witness for C6: updating the demo record with status
"Working on it" yields the 400 invalid-status body, store unchanged. -/
theorem update_invalid_status_spec_witness :
    update_incident demoStore 1
        (some (.obj [("status", .str "Working on it")])) =
      .ok (demoStore, .badRequest invalidStatusError) ∧
    invalidStatusError.error = "Invalid status" ∧
    invalidStatusError.message = some statusMessage ∧
    (UpdateResult.badRequest invalidStatusError).code = 400 :=
  update_invalid_status_spec demoStore 1
    [("status", .str "Working on it")] demoIncident
    (.str "Working on it") (by decide) rfl
    (by intro s hs; injection hs with h; subst h; decide)

/-- C7 (amended): for an existing incident, an absent payload — and, as
the code also does, an empty/falsy one — yields the generic no-data 400
error, which is distinct from the not-found error; a payload that is a
non-empty object without a "status" key (for example one holding only
unrecognized keys) is a no-op: no mutation happens and the current
record is returned with HTTP 200. -/
theorem update_no_status_key_noop
    (st : Store) (incident_id : Nat) (incident : Incident)
    (fields : List (String × Json))
    (hfind : findIncident st incident_id = some incident)
    (hne : fields ≠ [])
    (hnostat : fields.lookup "status" = none) :
    update_incident st incident_id none =
      .ok (st, .badRequest noDataError) ∧
    (UpdateResult.badRequest noDataError).code = 400 ∧
    noDataError ≠ notFoundError ∧
    update_incident st incident_id (some (.obj fields)) =
      .ok (st, .updated incident) ∧
    (UpdateResult.updated incident).code = 200 := by
  have hemp := isEmpty_false_of_ne_nil hne
  have hkey : hasStatusKey (.obj fields) = .ok false := by
    simp [hasStatusKey, hnostat]
  refine ⟨?_, rfl, by decide, ?_, rfl⟩
  · simp only [update_incident, hfind]
  · simp only [update_incident, hfind, pyTruthy, hemp, Bool.not_false,
      if_true, hkey]

/-- Witness for C7 at the demo store with an unrecognized-key payload. -/
theorem update_no_status_key_noop_witness :
    update_incident demoStore 1 none =
      .ok (demoStore, .badRequest noDataError) ∧
    (UpdateResult.badRequest noDataError).code = 400 ∧
    noDataError ≠ notFoundError ∧
    update_incident demoStore 1
        (some (.obj [("priority", .str "urgent")])) =
      .ok (demoStore, .updated demoIncident) ∧
    (UpdateResult.updated demoIncident).code = 200 :=
  update_no_status_key_noop demoStore 1 demoIncident
    [("priority", .str "urgent")] (by decide) (List.cons_ne_nil _ _) rfl

/-- C7 counterexample: for an existing incident, the payload that is the
present (but empty, hence falsy) JSON object gets the generic no-data
400 error instead of the claimed 200 no-op. -/
theorem update_empty_object_counterexample :
    update_incident demoStore 1 (some (.obj [])) =
      .ok (demoStore, .badRequest noDataError) ∧
    update_incident demoStore 1 (some (.obj [])) ≠
      .ok (demoStore, .updated demoIncident) := by
  decide

/-- C8: a successful `update_incident` never mutates any field other
than status: the row list is a pointwise image under a function that
preserves id, title, description, reported_by, severity and timestamp,
and the id counter is unchanged — fields named in the payload other than
status are silently ignored. -/
theorem update_frame_only_status
    (st st' : Store) (incident_id : Nat) (data : Option Json)
    (r : UpdateResult)
    (h : update_incident st incident_id data = .ok (st', r)) :
    st'.nextId = st.nextId ∧
    ∃ f : Incident → Incident, st'.rows = st.rows.map f ∧
      ∀ i : Incident, (f i).id = i.id ∧ (f i).title = i.title ∧
        (f i).description = i.description ∧
        (f i).reported_by = i.reported_by ∧
        (f i).severity = i.severity ∧
        (f i).timestamp = i.timestamp := by
  rcases update_ok_shape h with rfl | ⟨s, hs, rfl⟩
  · exact ⟨rfl, id, (List.map_id _).symm,
      fun i => ⟨rfl, rfl, rfl, rfl, rfl, rfl⟩⟩
  · exact ⟨rfl, setStatus s incident_id, rfl,
      fun i => setStatus_frame s incident_id i⟩

/-- Witness for C8 at a concrete status update on the demo store. -/
theorem update_frame_only_status_witness :
    ({ rows := [demoResolved], nextId := 2 } : Store).nextId =
      demoStore.nextId ∧
    ∃ f : Incident → Incident,
      ({ rows := [demoResolved], nextId := 2 } : Store).rows =
        demoStore.rows.map f ∧
      ∀ i : Incident, (f i).id = i.id ∧ (f i).title = i.title ∧
        (f i).description = i.description ∧
        (f i).reported_by = i.reported_by ∧
        (f i).severity = i.severity ∧
        (f i).timestamp = i.timestamp :=
  update_frame_only_status demoStore
    { rows := [demoResolved], nextId := 2 } 1
    (some (.obj [("status", .str "Resolved")])) (.updated demoResolved)
    (by decide)

theorem filter_out_id_length {rows : List Incident} {tid : Nat}
    (hpw : rows.Pairwise (fun a b => a.id ≠ b.id))
    {j : Incident} (hmem : j ∈ rows) (hj : j.id = tid) :
    (rows.filter (fun i => i.id != tid)).length + 1 = rows.length := by
  induction rows with
  | nil => cases hmem
  | cons x xs ih =>
    rcases List.pairwise_cons.mp hpw with ⟨hx, hxs⟩
    by_cases hxi : x.id = tid
    · have hall : ∀ i ∈ xs, (i.id != tid) = true := by
        intro i hi
        have hne := hx i hi
        rw [bne_iff_ne]
        rw [← hxi]
        exact fun hc => hne hc.symm
      have hfx : (x.id != tid) = false := by
        simp [bne_eq_false_iff_eq, hxi]
      simp only [List.filter_cons, hfx, Bool.false_eq_true, if_false]
      rw [List.filter_eq_self.mpr hall]
      simp
    · have hxmem : j ∈ xs := by
        rcases List.mem_cons.mp hmem with rfl | hm
        · exact absurd hj hxi
        · exact hm
      have hb : (x.id != tid) = true := by rw [bne_iff_ne]; exact hxi
      simp only [List.filter_cons, hb, if_true, List.length_cons]
      have := ih hxs hxmem
      omega

/-- C9: deleting a nonexistent id answers HTTP 404 with the not-found
error and an unchanged store; deleting an existing id removes exactly
the rows with that id — one row, so the stored count decreases by one —
and answers HTTP 200 with the success message and the pre-deletion
snapshot of the record under `deleted_incident`. -/
theorem delete_incident_spec (st : Store) (incident_id : Nat)
    (hWF : st.WF) :
    (findIncident st incident_id = none →
      delete_incident st incident_id = (st, .notFound notFoundError) ∧
      (DeleteResult.notFound notFoundError).code = 404) ∧
    (∀ incident, findIncident st incident_id = some incident →
      incident ∈ st.rows ∧
      delete_incident st incident_id =
        ({ st with rows := st.rows.filter (fun i => i.id != incident_id) },
          .deleted "Incident deleted successfully" incident) ∧
      (st.rows.filter (fun i => i.id != incident_id)).length + 1 =
        st.rows.length ∧
      (DeleteResult.deleted "Incident deleted successfully"
        incident).code = 200) := by
  constructor
  · intro hf
    constructor
    · unfold delete_incident; rw [hf]
    · rfl
  · intro incident hf
    have hf' : st.rows.find? (fun i => i.id == incident_id) =
        some incident := hf
    have hmem : incident ∈ st.rows := List.mem_of_find?_eq_some hf'
    have hid : incident.id = incident_id := by
      have hp := List.find?_some hf'
      exact beq_iff_eq.mp hp
    refine ⟨hmem, ?_, filter_out_id_length hWF.2 hmem hid, rfl⟩
    unfold delete_incident; rw [hf]

/-- Witness for C9 at the demo store: deleting id 1 succeeds and
decrements the count; looking up id 1 finds the demo record. -/
theorem delete_incident_spec_witness :
    (findIncident demoStore 1 = none →
      delete_incident demoStore 1 = (demoStore, .notFound notFoundError) ∧
      (DeleteResult.notFound notFoundError).code = 404) ∧
    (∀ incident, findIncident demoStore 1 = some incident →
      incident ∈ demoStore.rows ∧
      delete_incident demoStore 1 =
        ({ demoStore with
            rows := demoStore.rows.filter (fun i => i.id != 1) },
          .deleted "Incident deleted successfully" incident) ∧
      (demoStore.rows.filter (fun i => i.id != 1)).length + 1 =
        demoStore.rows.length ∧
      (DeleteResult.deleted "Incident deleted successfully"
        incident).code = 200) :=
  delete_incident_spec demoStore 1 ⟨by decide, by decide⟩
